import Mathlib

/-!
Verification development for a small country-data HTTP service.

The service mirrors country reference data from two external sources into a
relational store keyed by case-insensitive country name.  We embed the data
model (`Country`), the CRUD layer (`create_or_update_country`,
`get_countries`, `count_countries`), the refresh reconciler
(`process_single_country_data`, `refreshLoop`, `refresh_countries`) and the
list route (`list_countries`) as executable Lean functions, and prove the
behavioural properties stated in the specification.

Modelling conventions:
* floats (exchange rates, multipliers, estimated GDP) are `Rat`;
* timestamps are abstract `Nat` ticks (`now` for `datetime.now()`,
  `unow` for `datetime.utcnow()`);
* optional JSON/database values are `Option`;
* the random multiplier `random.uniform(1000, 2000)` is an explicit
  parameter, one draw per catalog entry (`m : Nat → Rat`);
* exceptions are `Except` values; the per-entry database commit that may
  raise is an oracle `commitOk : Nat → Bool`;
* the database-assigned autoincrement `id` column is not part of the record
  model: no property below depends on it.
-/

/-- A currency descriptor inside a catalog entry: `currencies[i]` is a dict
whose `code` key may be missing. -/
structure CatalogCurrency where
  code : Option String
deriving DecidableEq, Repr

/-- One entry of the external catalog payload: a JSON dict in which every
field may be missing (`dict.get` returns `None`). -/
structure CatalogEntry where
  name : Option String
  capital : Option String
  region : Option String
  population : Option Int
  flag : Option String
  currencies : List CatalogCurrency
deriving DecidableEq, Repr

/-- A stored country row.  Fields are exactly the keys of the `country_dict`
built by the reconciler; the autoincrement `id` is omitted (see module
comment). -/
structure Country where
  name : Option String
  capital : Option String
  region : Option String
  population : Int
  currency_code : Option String
  exchange_rate : Option Rat
  estimated_gdp : Rat
  flag_url : Option String
  last_refreshed_at : Nat
deriving DecidableEq, Repr

/-- The database table of countries, in row order. -/
abbrev Store := List Country

/-- The rate table: the `rates` object of the exchange API response, a map
from currency code to USD-relative rate. -/
abbrev RateTable := List (String × Rat)

/-- ASCII lower-casing of a string, character by character (the model of
both Python `str.lower()` and SQL `lower()` on the ASCII data involved). -/
def strLower (s : String) : String :=
  ⟨s.data.map Char.toLower⟩

/-- Python `s.endswith(pat)`: the last `len(pat)` characters equal `pat`. -/
def strEndsWith (s pat : String) : Bool :=
  decide (pat.data.length ≤ s.data.length) &&
    (s.data.drop (s.data.length - pat.data.length) == pat.data)

/-- Case-insensitive name equality, as `func.lower(a) == func.lower(b)` in
SQL: a `NULL` name compares unequal to everything, including `NULL`. -/
def nameMatches (a b : Option String) : Bool :=
  match a, b with
  | some x, some y => strLower x == strLower y
  | _, _ => false

/-- `create_or_update_country(session, country_data)`: look up the first row
whose name equals `data.name` case-insensitively; if found, overwrite all of
its fields with `data` and bump `last_refreshed_at` to `utcnow` (`unow`);
otherwise insert `data` as a new row at the end. -/
def create_or_update_country (store : Store) (data : Country) (unow : Nat) : Store :=
  match store with
  | [] => [data]
  | c :: rest =>
    if nameMatches c.name data.name then
      { data with last_refreshed_at := unow } :: rest
    else
      c :: create_or_update_country rest data unow

/-- `currencies[0].get("code") if currencies else None`. -/
def firstCurrencyCode (e : CatalogEntry) : Option String :=
  match e.currencies with
  | [] => none
  | c :: _ => c.code

/-- `exchange_data.get(currency_code) if currency_code in exchange_data else
None`: a `None` code is never a key of the rate table. -/
def lookupRate (rates : RateTable) : Option String → Option Rat
  | none => none
  | some c => rates.lookup c

/-- The expression `(population * multiplier) / exchange_rate if
exchange_rate else 0`: Python checks truthiness of the rate first (both
`None` and `0.0` are falsy), and only then multiplies — so a missing
population with a truthy rate raises `TypeError`. -/
def computeGdp (population : Option Int) (rate : Option Rat) (mult : Rat) :
    Except String Rat :=
  match rate with
  | none => .ok 0
  | some r =>
    if r = 0 then .ok 0
    else
      match population with
      | none => .error "TypeError"
      | some p => .ok ((p * mult) / r)

/-- `_process_single_country_data(db, country, exchange_data)` without the
final store write: builds the `country_dict` for one catalog entry, or fails
with the `TypeError` of the GDP expression.  `mult` is this entry's draw of
`random.uniform(1000, 2000)` and `now` is `datetime.now()`. -/
def process_single_country_data (entry : CatalogEntry) (rates : RateTable)
    (mult : Rat) (now : Nat) : Except String Country :=
  let currency_code := firstCurrencyCode entry
  let exchange_rate := lookupRate rates currency_code
  match computeGdp entry.population exchange_rate mult with
  | .error e => .error e
  | .ok gdp =>
    .ok { name := entry.name
          capital := entry.capital
          region := entry.region
          population := entry.population.getD 0
          currency_code := currency_code
          exchange_rate := exchange_rate
          estimated_gdp := gdp
          flag_url := entry.flag
          last_refreshed_at := now }

/-- `count_countries(session)`: total row count of the table. -/
def count_countries (store : Store) : Nat :=
  store.length

/-- The loop `for country in countries_data: _process_single_country_data(...)`
of the refresh route.  `k` is the index of the current entry, `m k` its random
multiplier and `commitOk k` whether its database commit succeeds; a failed
commit is rolled back (that entry's write is lost) and the exception
propagates, carrying the store as committed so far. -/
def refreshLoop (rates : RateTable) (m : Nat → Rat) (commitOk : Nat → Bool)
    (now unow : Nat) : Nat → Store → List CatalogEntry →
    Except (String × Store) Store
  | _, store, [] => .ok store
  | k, store, e :: rest =>
    match process_single_country_data e rates (m k) now with
    | .error err => .error (err, store)
    | .ok data =>
      if commitOk k then
        refreshLoop rates m commitOk now unow (k + 1)
          (create_or_update_country store data unow) rest
      else
        .error ("PersistenceError", store)

/-- The store produced by successfully processing a list of entries in order
(the reference fold used to state partial-progress properties). -/
def applyEntries (rates : RateTable) (m : Nat → Rat) (now unow : Nat) :
    Nat → Store → List CatalogEntry → Store
  | _, store, [] => store
  | k, store, e :: rest =>
    match process_single_country_data e rates (m k) now with
    | .error _ => store
    | .ok data =>
      applyEntries rates m now unow (k + 1)
        (create_or_update_country store data unow) rest

/-- Bodies of the JSON envelopes the routes return. -/
inductive ResponseBody where
  | refreshSuccess (message : String) (total_countries : Nat)
      (last_refreshed_at : Nat)
  | errorPayload (error : String) (details : String)
deriving DecidableEq, Repr

/-- An HTTP response: status code and JSON body. -/
structure HttpResponse where
  status : Nat
  body : ResponseBody
deriving DecidableEq, Repr

/-- Everything observable about one refresh request: the HTTP response, the
store after the request, and whether the summary image was (re)written. -/
structure RefreshOutcome where
  response : HttpResponse
  store : Store
  imageWritten : Bool
deriving DecidableEq, Repr

/-- `POST /countries/refresh`.  The two external fetches are modelled by
their outcomes (`Except` of payload or failure cause); a `RequestException`
from either aborts with 503 before any store access.  On success the loop
upserts every entry; an exception from the loop reaches the generic handler
as a 500.  `generate_summary_image` is attempted inside `try/except`, so its
outcome (`render`) affects only whether the image file was written. -/
def refresh_countries (store : Store)
    (countriesFetch : Except String (List CatalogEntry))
    (exchangeFetch : Except String RateTable)
    (m : Nat → Rat) (commitOk : Nat → Bool) (now unow : Nat)
    (render : Except String Unit) : RefreshOutcome :=
  match countriesFetch with
  | .error cause =>
    ⟨⟨503, .errorPayload "External data source unavailable" cause⟩, store, false⟩
  | .ok countries_data =>
    match exchangeFetch with
    | .error cause =>
      ⟨⟨503, .errorPayload "External data source unavailable" cause⟩, store, false⟩
    | .ok exchange_data =>
      match refreshLoop exchange_data m commitOk now unow 0 store countries_data with
      | .error (msg, store1) =>
        ⟨⟨500, .errorPayload "Internal server error" msg⟩, store1, false⟩
      | .ok store1 =>
        ⟨⟨200, .refreshSuccess "Countries refreshed successfully"
            countries_data.length now⟩, store1, render.isOk⟩

/-- Python truthiness of an optional string parameter: `None` and the empty
string are falsy. -/
def truthyStr : Option String → Bool
  | none => false
  | some s => !s.isEmpty

/-- `hasattr(Country, s)` restricted to the mapped columns of the model (the
autoincrement `id` column is also an attribute of the source class but is
outside the record model; no listed property sorts by it). -/
def hasattrCountry (s : String) : Bool :=
  ["name", "capital", "region", "population", "currency_code",
   "exchange_rate", "estimated_gdp", "flag_url", "last_refreshed_at"].contains s

/-- SQL ascending comparison on a nullable string column (`NULL`s first). -/
def optStrLe : Option String → Option String → Bool
  | none, _ => true
  | some _, none => false
  | some x, some y => decide (x ≤ y)

/-- SQL ascending comparison on a nullable float column (`NULL`s first). -/
def optRatLe : Option Rat → Option Rat → Bool
  | none, _ => true
  | some _, none => false
  | some x, some y => decide (x ≤ y)

/-- Ascending comparison `getattr(Country, s).asc()` for each mapped column. -/
def leAsc (s : String) (a b : Country) : Bool :=
  match s with
  | "name" => optStrLe a.name b.name
  | "capital" => optStrLe a.capital b.capital
  | "region" => optStrLe a.region b.region
  | "population" => decide (a.population ≤ b.population)
  | "currency_code" => optStrLe a.currency_code b.currency_code
  | "exchange_rate" => optRatLe a.exchange_rate b.exchange_rate
  | "estimated_gdp" => decide (a.estimated_gdp ≤ b.estimated_gdp)
  | "flag_url" => optStrLe a.flag_url b.flag_url
  | "last_refreshed_at" => decide (a.last_refreshed_at ≤ b.last_refreshed_at)
  | _ => true

/-- The ordering requested by `order_by`: ascending when `sort_order ==
"asc"`, descending otherwise (the source has no third case). -/
def sortLe (s sort_order : String) (a b : Country) : Bool :=
  if sort_order == "asc" then leAsc s a b else leAsc s b a

/-- The filter stage of `get_countries`: optional case-insensitive region
and currency-code filters (a falsy parameter disables its filter; a `NULL`
column value never matches). -/
def filteredCountries (store : Store) (region currency_code : Option String) :
    Store :=
  let q := if truthyStr region then
      store.filter fun c =>
        match c.region, region with
        | some s, some r => strLower s == strLower r
        | _, _ => false
    else store
  if truthyStr currency_code then
    q.filter fun c =>
      match c.currency_code, currency_code with
      | some s, some r => strLower s == strLower r
      | _, _ => false
  else q

/-- `get_countries(session, region, currency_code, sort_by, sort_order)`:
filter, then sort only when `sort_by` is truthy and an attribute of
`Country`; an unknown sort field leaves the list unsorted. -/
def get_countries (store : Store) (region currency_code sort_by : Option String)
    (sort_order : String) : Store :=
  let q := filteredCountries store region currency_code
  if truthyStr sort_by && hasattrCountry (sort_by.getD "") then
    List.insertionSort (fun a b => sortLe (sort_by.getD "") sort_order a b = true) q
  else q

/-- `GET /countries` (`list_countries` route): parse the `sort` query into a
field and a direction (400 unless it ends in `_asc`/`_desc`), then delegate
to `get_countries`. -/
def list_countries (store : Store) (region currency sort : Option String) :
    Except HttpResponse Store :=
  match sort with
  | some s =>
    if !s.isEmpty then
      if strEndsWith s "_desc" then
        .ok (get_countries store region currency (some (s.dropRight 5)) "desc")
      else if strEndsWith s "_asc" then
        .ok (get_countries store region currency (some (s.dropRight 4)) "asc")
      else
        .error ⟨400, .errorPayload "Validation failed"
          "sort must end with _asc or _desc"⟩
    else .ok (get_countries store region currency none "asc")
  | none => .ok (get_countries store region currency none "asc")

/-- No two rows of the store have names equal up to case (the uniqueness
invariant of the table; rows with a `NULL` name never collide). -/
def noCaseDup : Store → Bool
  | [] => true
  | c :: rest => !(rest.any fun d => nameMatches d.name c.name) && noCaseDup rest

/-- Sample catalog entry with a resolvable currency and a population. -/
def entryAland : CatalogEntry :=
  ⟨some "Aland", none, none, some 4, none, [⟨some "USD"⟩]⟩

/-- Sample catalog entry with a resolvable currency but no population. -/
def entryGhostia : CatalogEntry :=
  ⟨some "Ghostia", none, none, none, none, [⟨some "USD"⟩]⟩

/-- Sample catalog entry without currencies. -/
def entryNocoin : CatalogEntry :=
  ⟨some "Nocoin", none, none, some 7, none, []⟩

/-- Sample catalog entry whose currency has rate exactly 0. -/
def entryZed : CatalogEntry :=
  ⟨some "Zed", none, none, some 9, none, [⟨some "ZZZ"⟩]⟩

/-- Sample rate table. -/
def ratesSample : RateTable := [("USD", 2), ("ZZZ", 0)]

/-- Sample stored row named `aland` (lower case). -/
def rowAland : Country :=
  ⟨some "aland", none, none, 4, none, none, 0, none, 1⟩

/-- Sample stored row named `Borduria`. -/
def rowBorduria : Country :=
  ⟨some "Borduria", none, none, 11, none, none, 0, none, 1⟩

/-- C1: a refresh request in which either external fetch fails returns 503
with body `error = "External data source unavailable"`, `details = cause`,
and the store is exactly as it was before the request. -/
theorem refresh_fetch_failure_aborts (store : Store) (m : Nat → Rat)
    (commitOk : Nat → Bool) (now unow : Nat) (render : Except String Unit) :
    (∀ (cause : String) (exchangeFetch : Except String RateTable),
      refresh_countries store (.error cause) exchangeFetch m commitOk now unow render =
        ⟨⟨503, .errorPayload "External data source unavailable" cause⟩, store, false⟩) ∧
    (∀ (cause : String) (entries : List CatalogEntry),
      refresh_countries store (.ok entries) (.error cause) m commitOk now unow render =
        ⟨⟨503, .errorPayload "External data source unavailable" cause⟩, store, false⟩) :=
  ⟨fun _ _ => rfl, fun _ _ => rfl⟩

/-- C7: when both fetches succeed and the upsert loop succeeds, the refresh
response is the 200 success payload whatever the outcome of the summary-image
rendering step; a render failure only means the image was not rewritten. -/
theorem render_failure_never_propagates (store : Store)
    (entries : List CatalogEntry) (rates : RateTable) (m : Nat → Rat)
    (commitOk : Nat → Bool) (now unow : Nat) (store1 : Store)
    (render : Except String Unit)
    (h : refreshLoop rates m commitOk now unow 0 store entries = .ok store1) :
    refresh_countries store (.ok entries) (.ok rates) m commitOk now unow render =
      ⟨⟨200, .refreshSuccess "Countries refreshed successfully"
          entries.length now⟩, store1, render.isOk⟩ := by
  simp [refresh_countries, h]

/-- Witness for C7 at a concrete input with a failing renderer. -/
theorem render_failure_never_propagates_witness :
    refresh_countries [] (.ok [entryNocoin]) (.ok ratesSample)
      (fun _ => 1500) (fun _ => true) 3 4 (.error "missing font") =
      ⟨⟨200, .refreshSuccess "Countries refreshed successfully" 1 3⟩,
        [⟨some "Nocoin", none, none, 7, none, none, 0, none, 3⟩], false⟩ :=
  render_failure_never_propagates [] [entryNocoin] ratesSample
    (fun _ => 1500) (fun _ => true) 3 4 _ (.error "missing font") rfl

/-- C4: a catalog entry whose first listed currency code is absent from the
rate table (including entries with no currency) is processed successfully
into a record with `estimated_gdp = 0` and `exchange_rate = null`. -/
theorem absent_rate_zero_gdp_null_rate (entry : CatalogEntry)
    (rates : RateTable) (mult : Rat) (now : Nat)
    (h : lookupRate rates (firstCurrencyCode entry) = none) :
    process_single_country_data entry rates mult now =
      .ok { name := entry.name
            capital := entry.capital
            region := entry.region
            population := entry.population.getD 0
            currency_code := firstCurrencyCode entry
            exchange_rate := none
            estimated_gdp := 0
            flag_url := entry.flag
            last_refreshed_at := now } := by
  simp [process_single_country_data, h, computeGdp]

/-- Witness for C4 at a concrete currency-less entry. -/
theorem absent_rate_zero_gdp_null_rate_witness :
    process_single_country_data entryNocoin ratesSample 1500 3 =
      .ok ⟨some "Nocoin", none, none, 7, none, none, 0, none, 3⟩ :=
  absent_rate_zero_gdp_null_rate entryNocoin ratesSample 1500 3 rfl

/-- C10: a rate of exactly 0 in the rate table does not cause a division by
zero: the truthiness guard treats it as no rate, so `estimated_gdp` is 0
while `exchange_rate` is stored as 0, not null. -/
theorem zero_rate_guarded (entry : CatalogEntry) (rates : RateTable)
    (mult : Rat) (now : Nat) (c : String)
    (hc : firstCurrencyCode entry = some c)
    (hr : rates.lookup c = some 0) :
    ∃ rec, process_single_country_data entry rates mult now = .ok rec ∧
      rec.estimated_gdp = 0 ∧ rec.exchange_rate = some 0 := by
  refine ⟨{ name := entry.name
            capital := entry.capital
            region := entry.region
            population := entry.population.getD 0
            currency_code := some c
            exchange_rate := some 0
            estimated_gdp := 0
            flag_url := entry.flag
            last_refreshed_at := now }, ?_, rfl, rfl⟩
  simp [process_single_country_data, lookupRate, hc, hr, computeGdp]

/-- Witness for C10 at a concrete entry whose currency rate is 0. -/
theorem zero_rate_guarded_witness :
    ∃ rec, process_single_country_data entryZed ratesSample 1500 3 = .ok rec ∧
      rec.estimated_gdp = 0 ∧ rec.exchange_rate = some 0 :=
  zero_rate_guarded entryZed ratesSample 1500 3 "ZZZ" rfl rfl

/-- C3: a catalog entry whose first currency code resolves to a nonzero rate
`r` is processed into a record whose `estimated_gdp` is
`population * multiplier / r` for some multiplier in the closed interval
`[1000, 2000]` (the draw of `random.uniform(1000, 2000)` for that entry). -/
theorem resolvable_rate_gdp_formula (entry : CatalogEntry) (rates : RateTable)
    (mult : Rat) (now : Nat) (r : Rat) (rec : Country)
    (hm1 : 1000 ≤ mult) (hm2 : mult ≤ 2000)
    (hr : lookupRate rates (firstCurrencyCode entry) = some r) (hr0 : r ≠ 0)
    (hok : process_single_country_data entry rates mult now = .ok rec) :
    ∃ m0 : Rat, 1000 ≤ m0 ∧ m0 ≤ 2000 ∧
      rec.estimated_gdp = (rec.population * m0) / r := by
  simp only [process_single_country_data, hr] at hok
  cases hp : entry.population with
  | none =>
    rw [hp] at hok
    simp only [computeGdp, if_neg hr0] at hok
    exact absurd hok (by simp)
  | some p =>
    rw [hp] at hok
    simp only [computeGdp, if_neg hr0, Except.ok.injEq] at hok
    refine ⟨mult, hm1, hm2, ?_⟩
    rw [← hok]
    simp

/-- Witness for C3: population 4, rate 2, multiplier 1500 give GDP 3000. -/
theorem resolvable_rate_gdp_formula_witness :
    ∃ m0 : Rat, 1000 ≤ m0 ∧ m0 ≤ 2000 ∧
      (3000 : Rat) = (((4 : Int) : Rat) * m0) / 2 :=
  resolvable_rate_gdp_formula entryAland ratesSample 1500 3 2
    ⟨some "Aland", none, none, 4, some "USD", some 2, 3000, none, 3⟩
    (by norm_num) (by norm_num) rfl (by norm_num) (by norm_num [process_single_country_data, firstCurrencyCode, entryAland, lookupRate, ratesSample, computeGdp])

/-- C5: a catalog entry with a resolvable truthy rate but no population
raises `TypeError` in the GDP multiplication (the default-to-0 for the
population is applied only afterward), so the refresh request fails with the
generic 500 handler and the entry is never stored. -/
theorem missing_population_crashes_refresh :
    process_single_country_data entryGhostia ratesSample 1500 3 =
        .error "TypeError" ∧
    refresh_countries [] (.ok [entryGhostia]) (.ok ratesSample)
        (fun _ => 1500) (fun _ => true) 3 4 (.ok ()) =
      ⟨⟨500, .errorPayload "Internal server error" "TypeError"⟩, [], false⟩ :=
  ⟨rfl, rfl⟩

/-- Case-insensitive name matching is symmetric. -/
theorem nameMatches_symm (a b : Option String) :
    nameMatches a b = nameMatches b a := by
  cases a with
  | none => cases b <;> rfl
  | some x =>
    cases b with
    | none => rfl
    | some y =>
      show (strLower x == strLower y) = (strLower y == strLower x)
      cases hxy : strLower x == strLower y with
      | true =>
        have hxy' := beq_iff_eq.mp hxy
        symm
        rw [beq_iff_eq]
        exact hxy'.symm
      | false =>
        have hxy' := beq_eq_false_iff_ne.mp hxy
        symm
        rw [beq_eq_false_iff_ne]
        exact fun e => hxy' e.symm

/-- Rows matching one of two case-equal names match the other as well. -/
theorem nameMatches_congr {a b : Option String}
    (h : nameMatches a b = true) (c : Option String) :
    nameMatches c a = nameMatches c b := by
  cases a with
  | none => simp [nameMatches] at h
  | some x =>
    cases b with
    | none => simp [nameMatches] at h
    | some y =>
      simp only [nameMatches, beq_iff_eq] at h
      cases c <;> simp [nameMatches, h]

/-- When no row matches the new name, the upsert appends the record. -/
theorem create_or_update_not_found {store : Store} {data : Country}
    {unow : Nat} (h : store.any (fun c => nameMatches c.name data.name) = false) :
    create_or_update_country store data unow = store ++ [data] := by
  induction store with
  | nil => rfl
  | cons c rest ih =>
    simp only [List.any_cons, Bool.or_eq_false_iff] at h
    simp [create_or_update_country, h.1, ih h.2]

/-- When the first matching row sits at index `i`, the upsert replaces that
row in place with the new record (timestamp bumped to `unow`). -/
theorem create_or_update_found {store : Store} {data : Country} {unow : Nat}
    (i : Nat) (hi : i < store.length)
    (hmatch : nameMatches (store.get ⟨i, hi⟩).name data.name = true)
    (hfirst : ∀ j (hj : j < i),
      nameMatches (store.get ⟨j, Nat.lt_trans hj hi⟩).name data.name = false) :
    create_or_update_country store data unow =
      store.set i { data with last_refreshed_at := unow } := by
  induction store generalizing i with
  | nil => exact absurd hi (Nat.not_lt_zero i)
  | cons c rest ih =>
    cases i with
    | zero =>
      simp only [List.get] at hmatch
      simp [create_or_update_country, hmatch]
    | succ i =>
      have h0 : nameMatches c.name data.name = false := hfirst 0 (Nat.succ_pos i)
      have hrest := ih i (Nat.lt_of_succ_lt_succ hi) hmatch
        (fun j hj => hfirst (j + 1) (Nat.succ_lt_succ hj))
      simp [create_or_update_country, h0, hrest]

/-- Every row of an upserted store is an old row or carries the new name. -/
theorem mem_create_or_update {store : Store} {data : Country} {unow : Nat}
    {d : Country} (hd : d ∈ create_or_update_country store data unow) :
    d ∈ store ∨ d.name = data.name := by
  induction store with
  | nil =>
    simp only [create_or_update_country, List.mem_singleton] at hd
    exact Or.inr (by rw [hd])
  | cons c rest ih =>
    by_cases hm : nameMatches c.name data.name = true
    · simp only [create_or_update_country, if_pos hm, List.mem_cons] at hd
      rcases hd with hd | hd
      · exact Or.inr (by rw [hd])
      · exact Or.inl (List.mem_cons_of_mem c hd)
    · simp only [create_or_update_country, if_neg hm, List.mem_cons] at hd
      rcases hd with hd | hd
      · exact Or.inl (by rw [hd]; exact List.mem_cons_self c rest)
      · rcases ih hd with h | h
        · exact Or.inl (List.mem_cons_of_mem c h)
        · exact Or.inr h

/-- The upsert preserves case-insensitive uniqueness of names. -/
theorem noCaseDup_create_or_update {store : Store} {data : Country}
    {unow : Nat} (h : noCaseDup store = true) :
    noCaseDup (create_or_update_country store data unow) = true := by
  induction store with
  | nil => simp [create_or_update_country, noCaseDup]
  | cons c rest ih =>
    simp only [noCaseDup, Bool.and_eq_true, Bool.not_eq_true',
      List.any_eq_false] at h
    by_cases hm : nameMatches c.name data.name = true
    · simp only [create_or_update_country, if_pos hm, noCaseDup,
        Bool.and_eq_true, Bool.not_eq_true', List.any_eq_false]
      refine ⟨fun d hd => ?_, h.2⟩
      rw [← nameMatches_congr hm d.name]
      exact h.1 d hd
    · simp only [create_or_update_country, if_neg hm, noCaseDup,
        Bool.and_eq_true, Bool.not_eq_true', List.any_eq_false]
      refine ⟨fun d hd => ?_, ih h.2⟩
      rcases mem_create_or_update hd with hmem | hname
      · exact h.1 d hmem
      · rw [hname, nameMatches_symm]
        simpa using hm

/-- C2: the upsert looks up by case-insensitive name; when no row matches it
inserts the record at the end, when the first matching row is at index `i` it
overwrites exactly that row (all fields from the new record, timestamp
bumped) without changing the row count, and it preserves the invariant that
no two rows have names differing only in case. -/
theorem upsert_case_insensitive (store : Store) (data : Country) (unow : Nat) :
    (store.any (fun c => nameMatches c.name data.name) = false →
      create_or_update_country store data unow = store ++ [data]) ∧
    (∀ i (hi : i < store.length),
      nameMatches (store.get ⟨i, hi⟩).name data.name = true →
      (∀ j (hj : j < i),
        nameMatches (store.get ⟨j, Nat.lt_trans hj hi⟩).name data.name = false) →
      create_or_update_country store data unow =
          store.set i { data with last_refreshed_at := unow } ∧
        (create_or_update_country store data unow).length = store.length) ∧
    (noCaseDup store = true →
      noCaseDup (create_or_update_country store data unow) = true) := by
  refine ⟨fun h => create_or_update_not_found h, fun i hi hmatch hfirst => ?_,
    fun h => noCaseDup_create_or_update h⟩
  have heq := @create_or_update_found store data unow i hi hmatch hfirst
  exact ⟨heq, by rw [heq, List.length_set]⟩

/-- Witness for C2: inserting a fresh name appends; upserting `ALAND` over
the row named `aland` overwrites that row in place and keeps the invariant. -/
theorem upsert_case_insensitive_witness :
    create_or_update_country [rowAland] rowBorduria 9 =
        [rowAland] ++ [rowBorduria] ∧
    create_or_update_country [rowAland, rowBorduria]
        ⟨some "ALAND", some "Mariehamn", none, 6, none, none, 1, none, 5⟩ 9 =
      ([rowAland, rowBorduria].set 0
        ⟨some "ALAND", some "Mariehamn", none, 6, none, none, 1, none, 9⟩) ∧
    noCaseDup (create_or_update_country [rowAland] rowBorduria 9) = true :=
  ⟨(upsert_case_insensitive [rowAland] rowBorduria 9).1 (by decide),
   ((upsert_case_insensitive [rowAland, rowBorduria]
      ⟨some "ALAND", some "Mariehamn", none, 6, none, none, 1, none, 5⟩ 9).2.1
      0 (by decide) (by decide) (by decide)).1,
   (upsert_case_insensitive [rowAland] rowBorduria 9).2.2 (by decide)⟩

/-- If the first failing commit among the entries still to be processed is
the `k`-th one (counting from base index `b`), and every entry's record
builds successfully, the loop stops there: the store holds exactly the
upserts of the first `k` entries and later entries are never attempted. -/
theorem refreshLoop_stops_at (rates : RateTable) (m : Nat → Rat)
    (commitOk : Nat → Bool) (now unow : Nat) :
    ∀ (entries : List CatalogEntry) (b k : Nat) (store : Store),
      k < entries.length →
      (∀ j, j < k → commitOk (b + j) = true) →
      commitOk (b + k) = false →
      (∀ j (hj : j < entries.length),
        (process_single_country_data (entries.get ⟨j, hj⟩) rates (m (b + j))
          now).isOk = true) →
      refreshLoop rates m commitOk now unow b store entries =
        .error ("PersistenceError",
          applyEntries rates m now unow b store (entries.take k)) := by
  intro entries
  induction entries with
  | nil => intro b k store hk; exact absurd hk (Nat.not_lt_zero k)
  | cons e rest ih =>
    intro b k store hk hbefore hfail hproc
    have hp0 := hproc 0 (Nat.succ_pos rest.length)
    simp only [List.get] at hp0
    cases hpe : process_single_country_data e rates (m (b + 0)) now with
    | error err =>
      rw [hpe] at hp0
      exact absurd hp0 (by simp [Except.isOk, Except.toBool])
    | ok data =>
      rw [Nat.add_zero] at hpe
      cases k with
      | zero =>
        rw [Nat.add_zero] at hfail
        simp [refreshLoop, hpe, hfail, applyEntries]
      | succ k =>
        have hok0 : commitOk b = true := by
          have := hbefore 0 (Nat.succ_pos k)
          rwa [Nat.add_zero] at this
        have hrec := ih (b + 1) k (create_or_update_country store data unow)
          (Nat.lt_of_succ_lt_succ hk)
          (fun j hj => by
            have h1 : b + 1 + j = b + (j + 1) := by omega
            rw [h1]
            exact hbefore (j + 1) (Nat.succ_lt_succ hj))
          (by
            have h2 : b + 1 + k = b + (k + 1) := by omega
            rw [h2]
            exact hfail)
          (fun j hj => by
            have h3 : b + 1 + j = b + (j + 1) := by omega
            rw [h3]
            exact hproc (j + 1) (Nat.succ_lt_succ hj))
        simp [refreshLoop, hpe, hok0, applyEntries, List.take, hrec]

/-- C6: the refresh reconciler walks the catalog payload in order, one
separate upsert per entry: when the `k`-th commit is the first to fail, the
request aborts with the store holding exactly the upserts of the entries
before `k` (no rollback of prior entries) and the entries after `k` never
attempted. -/
theorem refresh_partial_commit (rates : RateTable) (m : Nat → Rat)
    (commitOk : Nat → Bool) (now unow : Nat) (store : Store)
    (entries : List CatalogEntry) (k : Nat) (hk : k < entries.length)
    (hbefore : ∀ j, j < k → commitOk j = true) (hfail : commitOk k = false)
    (hproc : ∀ j (hj : j < entries.length),
      (process_single_country_data (entries.get ⟨j, hj⟩) rates (m j)
        now).isOk = true) :
    refreshLoop rates m commitOk now unow 0 store entries =
      .error ("PersistenceError",
        applyEntries rates m now unow 0 store (entries.take k)) := by
  refine refreshLoop_stops_at rates m commitOk now unow entries 0 k store hk
    (fun j hj => ?_) ?_ (fun j hj => ?_)
  · rw [Nat.zero_add]; exact hbefore j hj
  · rw [Nat.zero_add]; exact hfail
  · rw [Nat.zero_add]; exact hproc j hj

/-- Witness for C6: with two entries and the second commit failing, the
store holds exactly the first entry's upsert. -/
theorem refresh_partial_commit_witness :
    refreshLoop ratesSample (fun _ => 1500) (fun j => decide (j < 1)) 3 4 0 []
        [entryNocoin, entryZed] =
      .error ("PersistenceError",
        applyEntries ratesSample (fun _ => 1500) 3 4 0 []
          ([entryNocoin, entryZed].take 1)) :=
  refresh_partial_commit ratesSample (fun _ => 1500) (fun j => decide (j < 1))
    3 4 [] [entryNocoin, entryZed] 1 (by decide) (by decide) (by decide)
    (by decide)

/-- The descending population ordering used by `sort=population_desc`. -/
theorem sortLe_population_desc (a b : Country) :
    sortLe "population" "desc" a b = decide (b.population ≤ a.population) := rfl

/-- C8: listing with `sort=population_desc` returns the matching records in
non-increasing population order, while `sort=bogus_desc` (well-formed suffix,
unknown field) returns them unsorted with no error: the unknown sort field is
silently ignored. -/
theorem list_sort_known_vs_unknown_field (store : Store)
    (region currency : Option String) :
    (∃ l, list_countries store region currency (some "population_desc") =
        .ok l ∧
      l.Perm (filteredCountries store region currency) ∧
      l.Pairwise (fun a b => b.population ≤ a.population)) ∧
    list_countries store region currency (some "bogus_desc") =
      .ok (filteredCountries store region currency) := by
  constructor
  · refine ⟨List.insertionSort
      (fun a b => sortLe "population" "desc" a b = true)
      (filteredCountries store region currency), rfl,
      List.perm_insertionSort _ _, ?_⟩
    haveI : IsTotal Country (fun a b => sortLe "population" "desc" a b = true) :=
      ⟨fun a b => by
        simp only [sortLe_population_desc, decide_eq_true_eq]
        exact le_total b.population a.population⟩
    haveI : IsTrans Country (fun a b => sortLe "population" "desc" a b = true) :=
      ⟨fun a b c hab hbc => by
        simp only [sortLe_population_desc, decide_eq_true_eq] at hab hbc ⊢
        exact le_trans hbc hab⟩
    have hs : List.Pairwise (fun a b => sortLe "population" "desc" a b = true)
        (List.insertionSort (fun a b => sortLe "population" "desc" a b = true)
          (filteredCountries store region currency)) :=
      List.sorted_insertionSort _ _
    refine hs.imp ?_
    intro a b h
    rw [sortLe_population_desc] at h
    exact of_decide_eq_true h
  · rfl

/-- A store with two rows, used to compare refresh and status counts. -/
def storeTwoRows : Store := [rowAland, rowBorduria]

/-- A one-entry catalog payload whose name matches `rowAland` up to case. -/
def payloadOne : List CatalogEntry :=
  [⟨some "ALAND", none, none, some 5, none, []⟩]

/-- C9: the 200 refresh response reports the length of the fetched catalog
payload, not the store row count; since refresh never deletes stale rows,
the `GET /status` count right afterwards can be strictly larger. -/
theorem refresh_total_counts_payload :
    (∀ (store : Store) (entries : List CatalogEntry) (rates : RateTable)
        (m : Nat → Rat) (commitOk : Nat → Bool) (now unow : Nat)
        (render : Except String Unit) (store1 : Store),
      refreshLoop rates m commitOk now unow 0 store entries = .ok store1 →
      (refresh_countries store (.ok entries) (.ok rates) m commitOk now unow
          render).response.body =
        .refreshSuccess "Countries refreshed successfully"
          entries.length now) ∧
    ((refresh_countries storeTwoRows (.ok payloadOne) (.ok [])
        (fun _ => 1500) (fun _ => true) 5 6 (.ok ())).response.body =
      .refreshSuccess "Countries refreshed successfully"
        payloadOne.length 5 ∧
      payloadOne.length <
        count_countries (refresh_countries storeTwoRows (.ok payloadOne)
          (.ok []) (fun _ => 1500) (fun _ => true) 5 6 (.ok ())).store) := by
  refine ⟨fun store entries rates m commitOk now unow render store1 h => ?_,
    rfl, ?_⟩
  · simp [refresh_countries, h]
  · decide

/-- Witness for C9 at a concrete successful refresh. -/
theorem refresh_total_counts_payload_witness :
    (refresh_countries [] (.ok [entryNocoin]) (.ok ratesSample)
        (fun _ => 1500) (fun _ => true) 3 4 (.ok ())).response.body =
      .refreshSuccess "Countries refreshed successfully"
        [entryNocoin].length 3 :=
  refresh_total_counts_payload.1 [] [entryNocoin] ratesSample
    (fun _ => 1500) (fun _ => true) 3 4 (.ok ())
    [⟨some "Nocoin", none, none, 7, none, none, 0, none, 3⟩] rfl
